import Mathlib

/-!
Shallow embedding of the PumpGuardian ESP32 pump-controller firmware
(`pump_guardian_2.ino`, the full-featured Firestore variant).

Floating-point sensor values and thresholds are modelled over `ℚ`; the
C++ code only compares and divides them, so the ordering logic is
identical for the finite values of interest.  `NaN` readings from the
PZEM meter are modelled as `Option ℚ` with `none` standing for NaN.
`millis()` timestamps are `unsigned long` (32-bit) values; where the
code subtracts or adds them, the arithmetic is taken modulo 2^32.
-/

namespace PumpGuardian

/-- Rational multiplication, computed on numerator/denominator pairs so
that the kernel can evaluate concrete control-loop runs; `qmul_eq`
proves it is ordinary multiplication on `ℚ`. -/
def qmul (a b : ℚ) : ℚ := mkRat (a.num * b.num) (a.den * b.den)

/-- Rational inverse, computed on numerator/denominator pairs;
`qinv_eq` proves it is the ordinary inverse on `ℚ`. -/
def qinv (b : ℚ) : ℚ :=
  if b.num < 0 then mkRat (-(b.den : Int)) b.num.natAbs
  else mkRat (b.den : Int) b.num.natAbs

/-- Rational division, computed on numerator/denominator pairs;
`qdiv_eq` proves it is ordinary division on `ℚ`. -/
def qdiv (a b : ℚ) : ℚ := qmul a (qinv b)

theorem qmul_eq (a b : ℚ) : qmul a b = a * b := by
  rw [qmul, Rat.mkRat_eq_div]
  push_cast
  conv_rhs => rw [← Rat.num_div_den a, ← Rat.num_div_den b]
  rw [div_mul_div_comm]

theorem qinv_eq (b : ℚ) : qinv b = b⁻¹ := by
  rw [Rat.inv_def', qinv]
  split_ifs with h
  · rw [Rat.mkRat_eq_divInt, Int.ofNat_natAbs_of_nonpos (le_of_lt h),
      Rat.neg_divInt_neg]
  · rw [Rat.mkRat_eq_divInt, Int.natAbs_of_nonneg (not_lt.mp h)]

theorem qdiv_eq (a b : ℚ) : qdiv a b = a / b := by
  rw [qdiv, qmul_eq, qinv_eq, div_eq_mul_inv]

/-- 2^32, the modulus of `unsigned long` arithmetic on the ESP32. -/
def U32 : Nat := 4294967296

/-- Wrapping subtraction of two `unsigned long` millisecond counters,
as in `millis() - lastOffMs`. -/
def usub (a b : Nat) : Nat := (a % U32 + U32 - b % U32) % U32

/-- `MIN_OFF_MS`: anti-chatter, require 5 s OFF before ON. -/
def MIN_OFF_MS : Nat := 5000

/-- `FAULT_LOCK_MS`: lockout after a fault for 30 s. -/
def FAULT_LOCK_MS : Nat := 30000

/-- `struct Thresholds`: pump safety thresholds. -/
structure Thresholds where
  minVoltage : ℚ
  maxVoltage : ℚ
  maxCurrent_A : ℚ
  minCurrent_A : ℚ
  minPF : ℚ
deriving DecidableEq

/-- The in-struct default initialisers of `Thresholds`. -/
def defaultThresholds : Thresholds :=
  { minVoltage := 180, maxVoltage := 260, maxCurrent_A := 6,
    minCurrent_A := mkRat 3 10, minPF := mkRat 1 2 }

/-- `enum FaultCode`. -/
inductive FaultCode where
  | FAULT_NONE
  | FAULT_DRYRUN
  | FAULT_OVERLOAD
  | FAULT_UNDERVOLT
  | FAULT_OVERVOLT
deriving DecidableEq

open FaultCode

/-- `evaluateFaults(float V, float I, float PF)` — first match wins. -/
def evaluateFaults (th : Thresholds) (V I PF : ℚ) : FaultCode :=
  if V < th.minVoltage then FAULT_UNDERVOLT
  else if V > th.maxVoltage then FAULT_OVERVOLT
  else if I > th.maxCurrent_A then FAULT_OVERLOAD
  else if I ≤ th.minCurrent_A ∧ PF ≤ th.minPF then FAULT_DRYRUN
  else FAULT_NONE

/-- `faultToString(FaultCode f)`. -/
def faultToString (f : FaultCode) : String :=
  match f with
  | FAULT_NONE => "OK"
  | FAULT_DRYRUN => "DRY RUN"
  | FAULT_OVERLOAD => "OVERLOAD"
  | FAULT_UNDERVOLT => "UNDER VOLT"
  | FAULT_OVERVOLT => "OVER VOLT"

/-- `struct DailySchedule`. -/
structure DailySchedule where
  onHour : Int
  onMinute : Int
  offHour : Int
  offMinute : Int
  enabled : Bool
  seasonStartMonth : Int
  seasonEndMonth : Int
deriving DecidableEq

/-- The in-struct default initialisers of `DailySchedule`. -/
def defaultSchedule : DailySchedule :=
  { onHour := 6, onMinute := 0, offHour := 6, offMinute := 30,
    enabled := false, seasonStartMonth := 1, seasonEndMonth := 12 }

/-- `struct State`: relay command/physical, manual latch, last fault, hp. -/
structure State where
  relayCommand : Bool
  relayPhysical : Bool
  manualPriority : Bool
  lastFault : String
  hp : ℚ
deriving DecidableEq

/-- The in-struct default initialisers of `State`. -/
def defaultState : State :=
  { relayCommand := false, relayPhysical := false, manualPriority := false,
    lastFault := "OK", hp := 1 }

/-- `setRelay(bool on)`: sets `relayCommand`, drives the pin, and sets
`relayPhysical`.  The pin polarity translation is the driver's concern. -/
def setRelay (s : State) (turnOn : Bool) : State :=
  { s with relayCommand := turnOn, relayPhysical := turnOn }

/-- `seasonAllows(const DateTime& now)` reading `now.month()`. -/
def seasonAllows (cfg : DailySchedule) (month : Int) : Bool :=
  if cfg.seasonStartMonth ≤ cfg.seasonEndMonth then
    decide (cfg.seasonStartMonth ≤ month ∧ month ≤ cfg.seasonEndMonth)
  else
    decide (cfg.seasonStartMonth ≤ month ∨ month ≤ cfg.seasonEndMonth)

/-- `isWithinOnWindow(const DateTime& now)` reading hour/minute/month. -/
def isWithinOnWindow (cfg : DailySchedule) (month hour minute : Int) : Bool :=
  if !cfg.enabled then false
  else if !seasonAllows cfg month then false
  else
    let curM := hour * 60 + minute
    let onM := cfg.onHour * 60 + cfg.onMinute
    let offM := cfg.offHour * 60 + cfg.offMinute
    if onM = offM then false
    else if onM < offM then decide (onM ≤ curM ∧ curM < offM)
    else decide (onM ≤ curM ∨ curM < offM)

/-- `estimateEfficiency(float measuredW)` with rated power `hp * 746`
(`qmul`/`qdiv` are multiplication and division on `ℚ`, see `qmul_eq`
and `qdiv_eq`). -/
def estimateEfficiency (hp measuredW : ℚ) : ℚ :=
  let ratedW := qmul hp 746
  if ratedW ≤ 1 then 0 else qdiv measuredW ratedW

/-- The mutable control-loop state of the firmware: the `State` struct plus
the free-standing globals used by `loop()`. -/
structure LoopState where
  state : State
  thresholds : Thresholds
  scheduleCfg : DailySchedule
  lastOffMs : Nat
  faultLockUntil : Nat
  wasRunning : Bool
  runStartMs : Nat
deriving DecidableEq

/-- Log calls made through `appendLog(type, msg)` during one loop step,
recorded as (category, message) pairs.  The numeric values interpolated
into some messages are elided; the claims inspect only the category. -/
abbrev LogCalls := List (String × String)

/-- The body of `if (debStart.fell())` in `loop()`: latch manual
priority, then turn on only if the anti-chatter and lockout gates pass. -/
def buttonStartStep (ls : LoopState) (nowMs : Nat) : LoopState × LogCalls :=
  let st := { ls.state with manualPriority := true }
  if MIN_OFF_MS ≤ usub nowMs ls.lastOffMs ∧ ls.faultLockUntil ≤ nowMs then
    ({ ls with state := setRelay st true }, [("button", "Manual ON")])
  else
    ({ ls with state := st }, [("button", "ON blocked (cooldown/lockout)")])

/-- The body of `if (debStop.fell())` in `loop()`: latch manual
priority, force off, record `lastOffMs = millis()`. -/
def buttonStopStep (ls : LoopState) (nowMs : Nat) : LoopState × LogCalls :=
  ({ ls with state := setRelay { ls.state with manualPriority := true } false,
             lastOffMs := nowMs },
   [("button", "Manual OFF")])

/-- The tail of the 500 ms sample block in `loop()`: the low-efficiency
health note and the run start/stop runtime accounting. -/
def sampleEpilogue (ls : LoopState) (nowMs : Nat) (P : ℚ) (evs : LogCalls) :
    LoopState × LogCalls :=
  let eff := estimateEfficiency ls.state.hp P
  let evs := evs ++
    (if 0 < eff ∧ eff < mkRat 2 5 ∧ ls.state.relayPhysical = true
     then [("health", "Low eff")] else [])
  if ls.state.relayPhysical = true ∧ ls.wasRunning = false then
    ({ ls with wasRunning := true, runStartMs := nowMs }, evs ++ [("run", "start")])
  else if ls.state.relayPhysical = false ∧ ls.wasRunning = true then
    ({ ls with wasRunning := false }, evs ++ [("run", "stop")])
  else (ls, evs)

/-- The 500 ms PZEM sample block of `loop()` (schedule command, NaN
substitution, fault evaluation, gated relay decision, health and runtime
notes).  `rawV`/`rawI`/`rawP`/`rawPF` are the meter readings with `none`
standing for NaN; `month`/`hour`/`minute` come from `getNow()`. -/
def sampleStep (ls : LoopState) (nowMs : Nat) (rawV rawI rawP rawPF : Option ℚ)
    (month hour minute : Int) : LoopState × LogCalls :=
  let V := rawV.getD 0
  let I := rawI.getD 0
  let P := rawP.getD 0
  let PF := rawPF.getD 1
  let st0 := ls.state
  let st1 :=
    if st0.manualPriority = false then
      { st0 with relayCommand := isWithinOnWindow ls.scheduleCfg month hour minute }
    else st0
  let fault := evaluateFaults ls.thresholds V I PF
  if fault ≠ FAULT_NONE then
    let st2 := { st1 with lastFault := faultToString fault }
    if st2.relayPhysical = true then
      sampleEpilogue
        { ls with state := { setRelay st2 false with manualPriority := false },
                  lastOffMs := nowMs,
                  faultLockUntil := (nowMs + FAULT_LOCK_MS) % U32 }
        nowMs P [("fault", faultToString fault)]
    else
      sampleEpilogue { ls with state := st2 } nowMs P []
  else
    let st2 := { st1 with
      lastFault := if nowMs < ls.faultLockUntil then "LOCKOUT" else "OK" }
    if st2.manualPriority = false then
      if st2.relayCommand = true then
        if MIN_OFF_MS ≤ usub nowMs ls.lastOffMs ∧ ls.faultLockUntil ≤ nowMs then
          sampleEpilogue { ls with state := setRelay st2 true } nowMs P []
        else
          sampleEpilogue { ls with state := st2 } nowMs P []
      else
        if st2.relayPhysical = true then
          sampleEpilogue
            { ls with state := setRelay st2 false, lastOffMs := nowMs } nowMs P []
        else
          sampleEpilogue { ls with state := st2 } nowMs P []
    else
      sampleEpilogue { ls with state := st2 } nowMs P []

/-- A fetched remote device document, as seen after the nested
`getFieldDouble`/`getFieldInt`/`getFieldBool` lookups: each config or
control field is present (`some`) or absent (`none`). -/
structure RemoteDoc where
  maxCurrent_A : Option ℚ
  minPF : Option ℚ
  minCurrent_A : Option ℚ
  minVoltage : Option ℚ
  maxVoltage : Option ℚ
  schedEnabled : Option Bool
  onHour : Option Int
  onMinute : Option Int
  offHour : Option Int
  offMinute : Option Int
  seasonStartMonth : Option Int
  seasonEndMonth : Option Int
  hp : Option ℚ
  forceOn : Option Bool
  forceOff : Option Bool
  clearManual : Option Bool
deriving DecidableEq

/-- The all-absent document fragment. -/
def emptyDoc : RemoteDoc :=
  { maxCurrent_A := none, minPF := none, minCurrent_A := none,
    minVoltage := none, maxVoltage := none, schedEnabled := none,
    onHour := none, onMinute := none, offHour := none, offMinute := none,
    seasonStartMonth := none, seasonEndMonth := none, hp := none,
    forceOn := none, forceOff := none, clearManual := none }

/-- `firestoreFetchAndApply()`: copy in every config field present in
the document (absent fields keep the local value), then apply the
control intent — `clearManual` clears the latch; `forceOn && !forceOff`
clears the latch and sets the relay on; `forceOff && !forceOn` clears
the latch and sets the relay off.  Control flags default to `false`
when absent.  The follow-up clearing PATCH and `savePrefs()` touch only
the remote document and flash, not this state. -/
def firestoreFetchAndApply (ls : LoopState) (doc : RemoteDoc) : LoopState :=
  let th := ls.thresholds
  let th :=
    { th with
      maxCurrent_A := doc.maxCurrent_A.getD th.maxCurrent_A,
      minPF := doc.minPF.getD th.minPF,
      minCurrent_A := doc.minCurrent_A.getD th.minCurrent_A,
      minVoltage := doc.minVoltage.getD th.minVoltage,
      maxVoltage := doc.maxVoltage.getD th.maxVoltage }
  let sc := ls.scheduleCfg
  let sc :=
    { sc with
      enabled := doc.schedEnabled.getD sc.enabled,
      onHour := doc.onHour.getD sc.onHour,
      onMinute := doc.onMinute.getD sc.onMinute,
      offHour := doc.offHour.getD sc.offHour,
      offMinute := doc.offMinute.getD sc.offMinute,
      seasonStartMonth := doc.seasonStartMonth.getD sc.seasonStartMonth,
      seasonEndMonth := doc.seasonEndMonth.getD sc.seasonEndMonth }
  let st := { ls.state with hp := doc.hp.getD ls.state.hp }
  let fOn := doc.forceOn.getD false
  let fOff := doc.forceOff.getD false
  let cm := doc.clearManual.getD false
  let st := if cm = true then { st with manualPriority := false } else st
  let st := if fOn = true ∧ fOff = false
            then setRelay { st with manualPriority := false } true else st
  let st := if fOff = true ∧ fOn = false
            then setRelay { st with manualPriority := false } false else st
  { ls with thresholds := th, scheduleCfg := sc, state := st }

/-- One externally-triggered step of `loop()`: a START or STOP button
edge, one 500 ms sample block, or one network-cycle fetch-and-apply of
the remote document (whose body does not read the clock). -/
inductive LoopInput where
  | buttonStart (nowMs : Nat)
  | buttonStop (nowMs : Nat)
  | sample (nowMs : Nat) (rawV rawI rawP rawPF : Option ℚ) (month hour minute : Int)
  | remote (nowMs : Nat) (doc : RemoteDoc)

/-- Dispatch one loop step. -/
def stepLoop (ls : LoopState) : LoopInput → LoopState × LogCalls
  | .buttonStart t => buttonStartStep ls t
  | .buttonStop t => buttonStopStep ls t
  | .sample t v i p pf mo h mi => sampleStep ls t v i p pf mo h mi
  | .remote _ doc => (firestoreFetchAndApply ls doc, [])

/-- Run a whole sequence of control-loop steps. -/
def runTrace (ls : LoopState) (inputs : List LoopInput) : LoopState :=
  inputs.foldl (fun s i => (stepLoop s i).1) ls

/-- One JSONL log record, the fields written by `appendLogLine`. -/
structure LogEvent where
  ts : String
  ty : String
  msg : String
deriving DecidableEq

/-- The serialised line `appendLogLine` prints for one event. -/
def logLine (e : LogEvent) : String :=
  "\x7b\"ts\":\"" ++ e.ts ++ "\",\"type\":\"" ++ e.ty ++ "\",\"msg\":\""
    ++ e.msg ++ "\"\x7d\n"

/-- Size in bytes of a list of serialised log lines (`File::size`). -/
def logSize (l : List LogEvent) : Nat :=
  (l.map (fun e => (logLine e).length)).sum

/-- The SPIFFS log files: the active `/logs.jsonl` (a possibly empty
list of records) and the single pending slot `/logs_pending.jsonl`
(`none` when the file does not exist). -/
structure LogFS where
  active : List LogEvent
  pending : Option (List LogEvent)
deriving DecidableEq

/-- `appendLog`: append one record to the active log. -/
def appendLog (fs : LogFS) (e : LogEvent) : LogFS :=
  { fs with active := fs.active ++ [e] }

/-- `rotateLogsIfTooBig(maxBytes)`: return if the active log is smaller
than the bound; otherwise `SPIFFS.remove(LOG_PENDING)` then
`SPIFFS.rename(LOG_PATH, LOG_PENDING)` — the whole active log becomes
the (single) pending batch, replacing any previous one, and the next
append starts a fresh active log. -/
def rotateLogsIfTooBig (fs : LogFS) (maxBytes : Nat) : LogFS :=
  if logSize fs.active < maxBytes then fs
  else { active := [], pending := some fs.active }

/-- The pending-batch drain inside the 5 s network cycle of `loop()`:
if `/logs_pending.jsonl` exists, each record is POSTed individually to
the telemetry collection (`postOk` gives each call's outcome, which the
code discards), then the file is removed.  Returns the new file state
and the list of (record, POST outcome) upload attempts. -/
def syncPendingLogs (fs : LogFS) (postOk : LogEvent → Bool) :
    LogFS × List (LogEvent × Bool) :=
  match fs.pending with
  | none => (fs, [])
  | some batch =>
      ({ fs with pending := none }, batch.map (fun e => (e, postOk e)))

/-! ### Concrete fixtures used by witnesses and counterexamples -/

/-- A loop state with all boot defaults and the relay off. -/
def lsBoot : LoopState :=
  { state := defaultState, thresholds := defaultThresholds,
    scheduleCfg := defaultSchedule, lastOffMs := 0, faultLockUntil := 0,
    wasRunning := false, runStartMs := 0 }

/-- A loop state in which the pump is running with no pending lockout. -/
def lsRunning : LoopState :=
  { state := { defaultState with relayCommand := true, relayPhysical := true },
    thresholds := defaultThresholds, scheduleCfg := defaultSchedule,
    lastOffMs := 0, faultLockUntil := 0, wasRunning := true, runStartMs := 0 }

/-- A loop state just after a fault trip: relay off, 30 s lockout armed. -/
def lsLocked : LoopState :=
  { state := { defaultState with lastFault := "UNDER VOLT" },
    thresholds := defaultThresholds, scheduleCfg := defaultSchedule,
    lastOffMs := 1000, faultLockUntil := 31000, wasRunning := false,
    runStartMs := 0 }

/-- A sample at t = 1000 ms with V = 100 (undervoltage on default
thresholds), taken in June at 12:00. -/
def undervoltSample : LoopInput :=
  .sample 1000 (some 100) (some 3) (some 500) (some (mkRat 9 10)) 6 12 0

/-- A remote document carrying only `control.forceOn = true`. -/
def forceOnDoc : RemoteDoc := { emptyDoc with forceOn := some true }

/-- A remote document carrying only `control.forceOff = true`. -/
def forceOffDoc : RemoteDoc := { emptyDoc with forceOff := some true }

/-- A remote config fragment carrying only `thresholds.maxCurrent_A`. -/
def onlyMaxCurrentDoc : RemoteDoc := { emptyDoc with maxCurrent_A := some 7 }

/-- An enabled schedule with the on-window `[22:00, 02:00)`, in season
all year. -/
def sched2202 : DailySchedule :=
  { onHour := 22, onMinute := 0, offHour := 2, offMinute := 0,
    enabled := true, seasonStartMonth := 1, seasonEndMonth := 12 }

/-- The schedule above restricted to the wrapped season `[11, 2]`. -/
def seasonNovFeb : DailySchedule :=
  { sched2202 with seasonStartMonth := 11, seasonEndMonth := 2 }

/-- A log record as written after boot. -/
def evNet : LogEvent := { ts := "2025-08-23T00:00:00Z", ty := "net", msg := "WiFi up" }

/-- A second, distinct log record. -/
def evBoot : LogEvent := { ts := "2025-08-23T00:00:01Z", ty := "boot", msg := "Firmware started" }

/-- A log file state with one pending record and an empty active log. -/
def fsOnePending : LogFS := { active := [], pending := some [evNet] }

/-- A log file state whose active log holds one record while an older
one-record batch is still pending. -/
def fsTwo : LogFS := { active := [evBoot], pending := some [evNet] }

/-! ### Helper lemmas about the sample-block epilogue -/

theorem sampleEpilogue_state (ls : LoopState) (t : Nat) (P : ℚ) (evs : LogCalls) :
    (sampleEpilogue ls t P evs).1.state = ls.state := by
  unfold sampleEpilogue
  split_ifs <;> rfl

theorem sampleEpilogue_lastOffMs (ls : LoopState) (t : Nat) (P : ℚ) (evs : LogCalls) :
    (sampleEpilogue ls t P evs).1.lastOffMs = ls.lastOffMs := by
  unfold sampleEpilogue
  split_ifs <;> rfl

theorem sampleEpilogue_faultLockUntil (ls : LoopState) (t : Nat) (P : ℚ) (evs : LogCalls) :
    (sampleEpilogue ls t P evs).1.faultLockUntil = ls.faultLockUntil := by
  unfold sampleEpilogue
  split_ifs <;> rfl

theorem mem_ite_health (c : Prop) [Decidable c] (ev : String × String)
    (h : ev ∈ (if c then [("health", "Low eff")] else [])) : ev.1 = "health" := by
  split at h
  · rw [List.mem_singleton] at h
    rw [h]
  · simp at h

theorem sampleEpilogue_nil_mem (ls : LoopState) (t : Nat) (P : ℚ) :
    ∀ ev ∈ (sampleEpilogue ls t P []).2, ev.1 = "health" ∨ ev.1 = "run" := by
  unfold sampleEpilogue
  intro ev hev
  split_ifs at hev with h1 h2
  · rcases List.mem_append.mp hev with h | h
    · rw [List.nil_append] at h
      exact Or.inl (mem_ite_health _ ev h)
    · rw [List.mem_singleton] at h
      rw [h]
      exact Or.inr rfl
  · rcases List.mem_append.mp hev with h | h
    · rw [List.nil_append] at h
      exact Or.inl (mem_ite_health _ ev h)
    · rw [List.mem_singleton] at h
      rw [h]
      exact Or.inr rfl
  · simp only [List.nil_append] at hev
    exact Or.inl (mem_ite_health _ ev hev)

/-! ### Claim theorems -/

/-- Claim C5: `evaluateFaults` returns the first match in the fixed
order undervoltage → overvoltage → overload → dry-run: `V < minVoltage`
gives Undervoltage regardless of current and power factor; DryRun needs
both `I ≤ minCurrent_A` and `PF ≤ minPF` (with voltage and current
otherwise in range); with no condition met it returns no fault. -/
theorem C5_evaluateFaults_order (th : Thresholds) (V I PF : ℚ) :
    (V < th.minVoltage → evaluateFaults th V I PF = FAULT_UNDERVOLT) ∧
    (th.minVoltage ≤ V → th.maxVoltage < V →
      evaluateFaults th V I PF = FAULT_OVERVOLT) ∧
    (th.minVoltage ≤ V → V ≤ th.maxVoltage → th.maxCurrent_A < I →
      evaluateFaults th V I PF = FAULT_OVERLOAD) ∧
    (th.minVoltage ≤ V → V ≤ th.maxVoltage → I ≤ th.maxCurrent_A →
      (evaluateFaults th V I PF = FAULT_DRYRUN ↔
        I ≤ th.minCurrent_A ∧ PF ≤ th.minPF)) ∧
    (th.minVoltage ≤ V → V ≤ th.maxVoltage → I ≤ th.maxCurrent_A →
      ¬(I ≤ th.minCurrent_A ∧ PF ≤ th.minPF) →
      evaluateFaults th V I PF = FAULT_NONE) := by
  unfold evaluateFaults
  refine ⟨?_, ?_, ?_, ?_, ?_⟩
  · intro h
    rw [if_pos h]
  · intro h1 h2
    rw [if_neg (not_lt.mpr h1), if_pos h2]
  · intro h1 h2 h3
    rw [if_neg (not_lt.mpr h1), if_neg (not_lt.mpr h2), if_pos h3]
  · intro h1 h2 h3
    rw [if_neg (not_lt.mpr h1), if_neg (not_lt.mpr h2), if_neg (not_lt.mpr h3)]
    split_ifs with h4 <;> simp [h4]
  · intro h1 h2 h3 h4
    rw [if_neg (not_lt.mpr h1), if_neg (not_lt.mpr h2), if_neg (not_lt.mpr h3),
        if_neg h4]

/-- Witness for C5 at concrete samples on the default thresholds. -/
theorem C5_witness :
    evaluateFaults defaultThresholds 150 1 1 = FAULT_UNDERVOLT ∧
    evaluateFaults defaultThresholds 230 (mkRat 1 5) (mkRat 2 5) = FAULT_DRYRUN ∧
    evaluateFaults defaultThresholds 230 (mkRat 1 5) 1 = FAULT_NONE :=
  ⟨(C5_evaluateFaults_order defaultThresholds 150 1 1).1 (by decide),
   ((C5_evaluateFaults_order defaultThresholds 230 (mkRat 1 5) (mkRat 2 5)).2.2.2.1
      (by decide) (by decide) (by decide)).mpr ⟨by decide, by decide⟩,
   (C5_evaluateFaults_order defaultThresholds 230 (mkRat 1 5) 1).2.2.2.2
      (by decide) (by decide) (by decide) (by decide)⟩

/-- Claim C6: `isWithinOnWindow` returns false when the schedule is
disabled or the (possibly wrapping) season check fails; within season it
is membership in `[on, off)` when on < off, membership in
`[on, 1440) ∪ [0, off)` when on > off, and false when they are equal;
window `[22:00, 02:00)` is true at 23:30 and 01:30 and false at 10:00,
and season `[11, 2]` includes months 12 and 1 and excludes month 6. -/
theorem C6_isWithinOnWindow_spec (cfg : DailySchedule) (month hour minute : Int)
    (hhour : 0 ≤ hour ∧ hour ≤ 23) (hmin : 0 ≤ minute ∧ minute ≤ 59) :
    (cfg.enabled = false → isWithinOnWindow cfg month hour minute = false) ∧
    (seasonAllows cfg month = false → isWithinOnWindow cfg month hour minute = false) ∧
    (cfg.enabled = true → seasonAllows cfg month = true →
      ((cfg.onHour * 60 + cfg.onMinute < cfg.offHour * 60 + cfg.offMinute →
         (isWithinOnWindow cfg month hour minute = true ↔
           cfg.onHour * 60 + cfg.onMinute ≤ hour * 60 + minute ∧
           hour * 60 + minute < cfg.offHour * 60 + cfg.offMinute)) ∧
       (cfg.offHour * 60 + cfg.offMinute < cfg.onHour * 60 + cfg.onMinute →
         (isWithinOnWindow cfg month hour minute = true ↔
           (cfg.onHour * 60 + cfg.onMinute ≤ hour * 60 + minute ∧
              hour * 60 + minute < 1440) ∨
           (0 ≤ hour * 60 + minute ∧
              hour * 60 + minute < cfg.offHour * 60 + cfg.offMinute))) ∧
       (cfg.onHour * 60 + cfg.onMinute = cfg.offHour * 60 + cfg.offMinute →
         isWithinOnWindow cfg month hour minute = false))) ∧
    (isWithinOnWindow sched2202 6 23 30 = true ∧
     isWithinOnWindow sched2202 6 1 30 = true ∧
     isWithinOnWindow sched2202 6 10 0 = false) ∧
    (seasonAllows seasonNovFeb 12 = true ∧ seasonAllows seasonNovFeb 1 = true ∧
     seasonAllows seasonNovFeb 6 = false) := by
  refine ⟨?_, ?_, ?_, by decide, by decide⟩
  · intro h
    simp [isWithinOnWindow, h]
  · intro h
    simp [isWithinOnWindow, h]
  · intro hen hseason
    have hcur : 0 ≤ hour * 60 + minute ∧ hour * 60 + minute < 1440 := by omega
    refine ⟨?_, ?_, ?_⟩
    · intro hlt
      rw [isWithinOnWindow]
      simp only [hen, hseason, Bool.not_true, Bool.false_eq_true, if_false]
      rw [if_neg (by omega), if_pos hlt]
      simp
    · intro hgt
      rw [isWithinOnWindow]
      simp only [hen, hseason, Bool.not_true, Bool.false_eq_true, if_false]
      rw [if_neg (by omega), if_neg (by omega)]
      simp only [decide_eq_true_eq]
      omega
    · intro heq
      rw [isWithinOnWindow]
      simp only [hen, hseason, Bool.not_true, Bool.false_eq_true, if_false]
      rw [if_pos heq]

/-- Witness for C6: the window `[22:00, 02:00)` at 23:30 via the
characterisation, and the concrete examples. -/
theorem C6_witness :
    isWithinOnWindow sched2202 6 23 30 = true ∧
    seasonAllows seasonNovFeb 12 = true :=
  ⟨((C6_isWithinOnWindow_spec sched2202 6 23 30
      ⟨by decide, by decide⟩ ⟨by decide, by decide⟩).2.2.2.1).1,
   ((C6_isWithinOnWindow_spec sched2202 6 23 30
      ⟨by decide, by decide⟩ ⟨by decide, by decide⟩).2.2.2.2).1⟩

/-- Claim C7: applying a fetched remote config document mutates only
the threshold/schedule/hp fields actually present: every absent field
leaves the corresponding local value unchanged. -/
theorem C7_config_frame (ls : LoopState) (doc : RemoteDoc) :
    (doc.maxCurrent_A = none →
      (firestoreFetchAndApply ls doc).thresholds.maxCurrent_A = ls.thresholds.maxCurrent_A) ∧
    (doc.minPF = none →
      (firestoreFetchAndApply ls doc).thresholds.minPF = ls.thresholds.minPF) ∧
    (doc.minCurrent_A = none →
      (firestoreFetchAndApply ls doc).thresholds.minCurrent_A = ls.thresholds.minCurrent_A) ∧
    (doc.minVoltage = none →
      (firestoreFetchAndApply ls doc).thresholds.minVoltage = ls.thresholds.minVoltage) ∧
    (doc.maxVoltage = none →
      (firestoreFetchAndApply ls doc).thresholds.maxVoltage = ls.thresholds.maxVoltage) ∧
    (doc.schedEnabled = none →
      (firestoreFetchAndApply ls doc).scheduleCfg.enabled = ls.scheduleCfg.enabled) ∧
    (doc.onHour = none →
      (firestoreFetchAndApply ls doc).scheduleCfg.onHour = ls.scheduleCfg.onHour) ∧
    (doc.onMinute = none →
      (firestoreFetchAndApply ls doc).scheduleCfg.onMinute = ls.scheduleCfg.onMinute) ∧
    (doc.offHour = none →
      (firestoreFetchAndApply ls doc).scheduleCfg.offHour = ls.scheduleCfg.offHour) ∧
    (doc.offMinute = none →
      (firestoreFetchAndApply ls doc).scheduleCfg.offMinute = ls.scheduleCfg.offMinute) ∧
    (doc.seasonStartMonth = none →
      (firestoreFetchAndApply ls doc).scheduleCfg.seasonStartMonth = ls.scheduleCfg.seasonStartMonth) ∧
    (doc.seasonEndMonth = none →
      (firestoreFetchAndApply ls doc).scheduleCfg.seasonEndMonth = ls.scheduleCfg.seasonEndMonth) ∧
    (doc.hp = none →
      (firestoreFetchAndApply ls doc).state.hp = ls.state.hp) := by
  refine ⟨?_, ?_, ?_, ?_, ?_, ?_, ?_, ?_, ?_, ?_, ?_, ?_, ?_⟩ <;>
    intro h <;>
    simp only [firestoreFetchAndApply, setRelay] <;>
    first
      | (simp [h]; done)
      | (simp only [h, Option.getD_none]; split_ifs <;> rfl)

/-- Witness for C7: applying a fragment containing only `maxCurrent_A`
leaves the schedule and all other threshold fields unchanged. -/
theorem C7_witness :
    (firestoreFetchAndApply lsBoot onlyMaxCurrentDoc).thresholds.minPF
      = lsBoot.thresholds.minPF ∧
    (firestoreFetchAndApply lsBoot onlyMaxCurrentDoc).thresholds.minCurrent_A
      = lsBoot.thresholds.minCurrent_A ∧
    (firestoreFetchAndApply lsBoot onlyMaxCurrentDoc).thresholds.minVoltage
      = lsBoot.thresholds.minVoltage ∧
    (firestoreFetchAndApply lsBoot onlyMaxCurrentDoc).thresholds.maxVoltage
      = lsBoot.thresholds.maxVoltage ∧
    (firestoreFetchAndApply lsBoot onlyMaxCurrentDoc).scheduleCfg.enabled
      = lsBoot.scheduleCfg.enabled ∧
    (firestoreFetchAndApply lsBoot onlyMaxCurrentDoc).scheduleCfg.onHour
      = lsBoot.scheduleCfg.onHour ∧
    (firestoreFetchAndApply lsBoot onlyMaxCurrentDoc).scheduleCfg.onMinute
      = lsBoot.scheduleCfg.onMinute ∧
    (firestoreFetchAndApply lsBoot onlyMaxCurrentDoc).scheduleCfg.offHour
      = lsBoot.scheduleCfg.offHour ∧
    (firestoreFetchAndApply lsBoot onlyMaxCurrentDoc).scheduleCfg.offMinute
      = lsBoot.scheduleCfg.offMinute ∧
    (firestoreFetchAndApply lsBoot onlyMaxCurrentDoc).scheduleCfg.seasonStartMonth
      = lsBoot.scheduleCfg.seasonStartMonth ∧
    (firestoreFetchAndApply lsBoot onlyMaxCurrentDoc).scheduleCfg.seasonEndMonth
      = lsBoot.scheduleCfg.seasonEndMonth ∧
    (firestoreFetchAndApply lsBoot onlyMaxCurrentDoc).state.hp
      = lsBoot.state.hp := by
  have h := C7_config_frame lsBoot onlyMaxCurrentDoc
  exact ⟨h.2.1 rfl, h.2.2.1 rfl, h.2.2.2.1 rfl, h.2.2.2.2.1 rfl,
    h.2.2.2.2.2.1 rfl, h.2.2.2.2.2.2.1 rfl, h.2.2.2.2.2.2.2.1 rfl,
    h.2.2.2.2.2.2.2.2.1 rfl, h.2.2.2.2.2.2.2.2.2.1 rfl,
    h.2.2.2.2.2.2.2.2.2.2.1 rfl, h.2.2.2.2.2.2.2.2.2.2.2.1 rfl,
    h.2.2.2.2.2.2.2.2.2.2.2.2 rfl⟩

/-- Claim C8: `rotateLogsIfTooBig` leaves the files untouched below the
size bound; at or past the bound the whole active log becomes the single
pending batch — replacing any pending batch that is still unflushed, so
the old batch's records are dropped, not appended — and the active log
restarts empty. -/
theorem C8_rotation (fs : LogFS) (maxBytes : Nat) :
    (logSize fs.active < maxBytes → rotateLogsIfTooBig fs maxBytes = fs) ∧
    (maxBytes ≤ logSize fs.active →
      (rotateLogsIfTooBig fs maxBytes).active = [] ∧
      (rotateLogsIfTooBig fs maxBytes).pending = some fs.active) := by
  unfold rotateLogsIfTooBig
  constructor
  · intro h
    rw [if_pos h]
  · intro h
    rw [if_neg (not_lt.mpr h)]
    exact ⟨rfl, rfl⟩

/-- Witness for C8: a second rotation while a one-record batch is still
pending replaces it with the new active log; the old record is gone. -/
theorem C8_witness :
    10 ≤ logSize fsTwo.active ∧
    (rotateLogsIfTooBig fsTwo 10).pending = some [evBoot] ∧
    (rotateLogsIfTooBig fsTwo 10).active = [] ∧
    fsTwo.pending = some [evNet] :=
  ⟨by decide, ((C8_rotation fsTwo 10).2 (by decide)).2,
   ((C8_rotation fsTwo 10).2 (by decide)).1, rfl⟩

/-- Counterexample to claim C2 as stated: with one pending record whose
individual upload fails (`postOk` constantly false), the sync pass still
removes the pending batch instead of leaving it intact for retry. -/
theorem C2_counterexample :
    fsOnePending.pending = some [evNet] ∧
    (syncPendingLogs fsOnePending (fun _ => false)).2 = [(evNet, false)] ∧
    (syncPendingLogs fsOnePending (fun _ => false)).1.pending = none := by
  refine ⟨rfl, rfl, rfl⟩

/-- Claim C2 (amended): during a reconciliation cycle with a pending
batch, each record is uploaded individually, but the batch file is
deleted at the end of the pass regardless of the upload outcomes, so
records whose upload failed are lost rather than retried. -/
theorem C2_sync_always_deletes (fs : LogFS) (postOk : LogEvent → Bool)
    (batch : List LogEvent) (h : fs.pending = some batch) :
    (syncPendingLogs fs postOk).1.pending = none ∧
    (syncPendingLogs fs postOk).2 = batch.map (fun e => (e, postOk e)) := by
  unfold syncPendingLogs
  rw [h]
  exact ⟨rfl, rfl⟩

/-- Witness for the amended C2 on a concrete one-record batch. -/
theorem C2_witness :
    (syncPendingLogs fsOnePending (fun _ => true)).1.pending = none ∧
    (syncPendingLogs fsOnePending (fun _ => true)).2 = [(evNet, true)] :=
  ⟨(C2_sync_always_deletes fsOnePending (fun _ => true) [evNet] rfl).1,
   (C2_sync_always_deletes fsOnePending (fun _ => true) [evNet] rfl).2⟩

/-- Counterexample to claim C1 as stated: a fault at t = 1000 ms sets
`faultLockUntil = 31000`; a remote `forceOn` applied at t = 2000 ms
nevertheless turns the relay from physically off to physically on, with
both gates violated (2000 − 1000 < `MIN_OFF_MS` and 2000 < 31000). -/
theorem C1_counterexample :
    (runTrace lsRunning [undervoltSample]).state.relayPhysical = false ∧
    (runTrace lsRunning [undervoltSample]).faultLockUntil = 31000 ∧
    (runTrace lsRunning [undervoltSample]).lastOffMs = 1000 ∧
    (runTrace lsRunning [undervoltSample, .remote 2000 forceOnDoc]).state.relayPhysical
      = true ∧
    usub 2000 (runTrace lsRunning [undervoltSample]).lastOffMs < MIN_OFF_MS ∧
    2000 < (runTrace lsRunning [undervoltSample]).faultLockUntil := by
  decide

set_option maxRecDepth 8192 in
/-- Claim C1 (amended): a transition from physically off to physically
on through the manual START button or through the schedule requires both
`now - lastOffMs ≥ MIN_OFF_MS` and `now ≥ faultLockUntil`; a remote
`forceOn` intent, however, energises the relay unconditionally,
bypassing both gates. -/
theorem C1_amended_gates (ls : LoopState) (t : Nat) :
    (ls.state.relayPhysical = false →
      (buttonStartStep ls t).1.state.relayPhysical = true →
      MIN_OFF_MS ≤ usub t ls.lastOffMs ∧ ls.faultLockUntil ≤ t) ∧
    (∀ rawV rawI rawP rawPF : Option ℚ, ∀ month hour minute : Int,
      ls.state.relayPhysical = false →
      (sampleStep ls t rawV rawI rawP rawPF month hour minute).1.state.relayPhysical
        = true →
      MIN_OFF_MS ≤ usub t ls.lastOffMs ∧ ls.faultLockUntil ≤ t) ∧
    (∀ doc : RemoteDoc, doc.forceOn = some true → doc.forceOff.getD false = false →
      (firestoreFetchAndApply ls doc).state.relayPhysical = true) := by
  refine ⟨?_, ?_, ?_⟩
  · intro hoff hon
    unfold buttonStartStep at hon
    split_ifs at hon with hgate
    · exact hgate
    · simp only [setRelay] at hon
      rw [hoff] at hon
      exact absurd hon (by simp)
  · intro rawV rawI rawP rawPF month hour minute hoff hon
    by_cases hg : MIN_OFF_MS ≤ usub t ls.lastOffMs ∧ ls.faultLockUntil ≤ t
    · exact hg
    · exfalso
      rcases Bool.dichotomy ls.state.manualPriority with hman | hman <;>
        rcases Bool.dichotomy (isWithinOnWindow ls.scheduleCfg month hour minute)
          with hsched | hsched <;>
        by_cases hf : evaluateFaults ls.thresholds (rawV.getD 0) (rawI.getD 0)
          (rawPF.getD 1) = FAULT_NONE <;>
        simp [sampleStep, hman, hsched, hf, hoff, hg, sampleEpilogue_state,
          setRelay] at hon
  · intro doc hOn hOff
    simp [firestoreFetchAndApply, hOn, hOff, setRelay]

/-- Witness for the amended C1: a manual start at t = 10000 from the
boot state (relay off since t = 0, no lockout) turns the relay on, and
the theorem yields that both gates held. -/
theorem C1_witness :
    MIN_OFF_MS ≤ usub 10000 lsBoot.lastOffMs ∧ lsBoot.faultLockUntil ≤ 10000 :=
  (C1_amended_gates lsBoot 10000).1 (by decide) (by decide)

/-- Counterexample to claim C3 as stated: a remote `forceOff` intent
applied while the pump is running (lastOffMs = 0) turns the relay
physically off but leaves `lastOffMs` at 0 instead of recording the
time of the transition. -/
theorem C3_counterexample :
    lsRunning.state.relayPhysical = true ∧
    lsRunning.lastOffMs = 0 ∧
    (stepLoop lsRunning (.remote 7777 forceOffDoc)).1.state.relayPhysical = false ∧
    (stepLoop lsRunning (.remote 7777 forceOffDoc)).1.lastOffMs = 0 := by
  decide

set_option maxRecDepth 8192 in
/-- Claim C3 (amended): a transition of the relay into the physically
off state caused by the manual stop button, by the schedule, or by a
fault trip records `lastOffMs = now`; a remote `forceOff` intent turns
the relay off without updating `lastOffMs`. -/
theorem C3_lastOff_recorded (ls : LoopState) (t : Nat) :
    ((buttonStopStep ls t).1.state.relayPhysical = false ∧
     (buttonStopStep ls t).1.lastOffMs = t) ∧
    (∀ rawV rawI rawP rawPF : Option ℚ, ∀ month hour minute : Int,
      ls.state.relayPhysical = true →
      (sampleStep ls t rawV rawI rawP rawPF month hour minute).1.state.relayPhysical
        = false →
      (sampleStep ls t rawV rawI rawP rawPF month hour minute).1.lastOffMs = t) ∧
    (∀ doc : RemoteDoc, doc.forceOff = some true → doc.forceOn.getD false = false →
      (firestoreFetchAndApply ls doc).state.relayPhysical = false ∧
      (firestoreFetchAndApply ls doc).lastOffMs = ls.lastOffMs) := by
  refine ⟨⟨rfl, rfl⟩, ?_, ?_⟩
  · intro rawV rawI rawP rawPF month hour minute hphys hoff
    by_cases hf : evaluateFaults ls.thresholds (rawV.getD 0) (rawI.getD 0)
      (rawPF.getD 1) = FAULT_NONE
    · rcases Bool.dichotomy ls.state.manualPriority with hman | hman <;>
        rcases Bool.dichotomy (isWithinOnWindow ls.scheduleCfg month hour minute)
          with hsched | hsched <;>
        by_cases hg : MIN_OFF_MS ≤ usub t ls.lastOffMs ∧ ls.faultLockUntil ≤ t <;>
        simp [sampleStep, hman, hsched, hf, hphys, hg, sampleEpilogue_lastOffMs,
          sampleEpilogue_state, setRelay] at hoff ⊢
    · rcases Bool.dichotomy ls.state.manualPriority with hman | hman <;>
        simp [sampleStep, hman, hf, hphys, sampleEpilogue_lastOffMs, setRelay]
  · intro doc hOff hOn
    constructor
    · simp [firestoreFetchAndApply, hOff, hOn, setRelay]
    · rfl

/-- Witness for the amended C3: a manual stop at t = 4242 records
`lastOffMs = 4242`, and a remote `forceOff` turns the relay off. -/
theorem C3_witness :
    (buttonStopStep lsRunning 4242).1.lastOffMs = 4242 ∧
    (firestoreFetchAndApply lsRunning forceOffDoc).state.relayPhysical = false :=
  ⟨(C3_lastOff_recorded lsRunning 4242).1.2,
   ((C3_lastOff_recorded lsRunning 4242).2.2 forceOffDoc rfl rfl).1⟩

/-- Claim C9: a falling edge of the manual START button sets
`manualPriority = true` even when the turn-on is rejected by the
anti-chatter/lockout gate (the relay stays as it was), and from a
latched state with the relay off, a sample step leaves `relayCommand`
untouched by the schedule and keeps the latch — the schedule has no
authority until the latch is cleared. -/
theorem C9_blocked_start_latches (ls : LoopState) (t : Nat)
    (hgate : ¬(MIN_OFF_MS ≤ usub t ls.lastOffMs ∧ ls.faultLockUntil ≤ t)) :
    (buttonStartStep ls t).1.state.manualPriority = true ∧
    (buttonStartStep ls t).1.state.relayPhysical = ls.state.relayPhysical ∧
    (∀ ls' : LoopState, ls'.state.manualPriority = true →
      ls'.state.relayPhysical = false →
      ∀ t' : Nat, ∀ rawV rawI rawP rawPF : Option ℚ, ∀ month hour minute : Int,
        (sampleStep ls' t' rawV rawI rawP rawPF month hour minute).1.state.relayCommand
          = ls'.state.relayCommand ∧
        (sampleStep ls' t' rawV rawI rawP rawPF month hour minute).1.state.manualPriority
          = true) := by
  refine ⟨?_, ?_, ?_⟩
  · unfold buttonStartStep
    rw [if_neg hgate]
  · unfold buttonStartStep
    rw [if_neg hgate]
  · intro ls' hman hphys t' rawV rawI rawP rawPF month hour minute
    by_cases hf : evaluateFaults ls'.thresholds (rawV.getD 0) (rawI.getD 0)
      (rawPF.getD 1) = FAULT_NONE <;>
      constructor <;>
      simp [sampleStep, hman, hphys, hf, sampleEpilogue_state, setRelay]

/-- Witness for C9: a START press at t = 2000 in the locked-out state
(lastOffMs = 1000, faultLockUntil = 31000) is blocked, yet latches
manual priority and leaves the relay off. -/
theorem C9_witness :
    ¬(MIN_OFF_MS ≤ usub 2000 lsLocked.lastOffMs ∧ lsLocked.faultLockUntil ≤ 2000) ∧
    (buttonStartStep lsLocked 2000).1.state.manualPriority = true ∧
    (buttonStartStep lsLocked 2000).1.state.relayPhysical
      = lsLocked.state.relayPhysical :=
  ⟨by decide, (C9_blocked_start_latches lsLocked 2000 (by decide)).1,
   (C9_blocked_start_latches lsLocked 2000 (by decide)).2.1⟩

set_option maxRecDepth 8192 in
/-- Claim C10: when `evaluateFaults` reports a fault while the relay is
already physically off, the sample step only updates `state.lastFault`:
`faultLockUntil` and `lastOffMs` are unchanged, the manual-priority
latch is untouched, and no fault log event is appended. -/
theorem C10_fault_while_off (ls : LoopState) (t : Nat)
    (rawV rawI rawP rawPF : Option ℚ) (month hour minute : Int)
    (hfault : evaluateFaults ls.thresholds (rawV.getD 0) (rawI.getD 0)
      (rawPF.getD 1) ≠ FAULT_NONE)
    (hoff : ls.state.relayPhysical = false) :
    (sampleStep ls t rawV rawI rawP rawPF month hour minute).1.faultLockUntil
      = ls.faultLockUntil ∧
    (sampleStep ls t rawV rawI rawP rawPF month hour minute).1.lastOffMs
      = ls.lastOffMs ∧
    (sampleStep ls t rawV rawI rawP rawPF month hour minute).1.state.manualPriority
      = ls.state.manualPriority ∧
    (sampleStep ls t rawV rawI rawP rawPF month hour minute).1.state.lastFault
      = faultToString (evaluateFaults ls.thresholds (rawV.getD 0) (rawI.getD 0)
          (rawPF.getD 1)) ∧
    (∀ ev ∈ (sampleStep ls t rawV rawI rawP rawPF month hour minute).2,
      ev.1 ≠ "fault") := by
  refine ⟨?_, ?_, ?_, ?_, ?_⟩
  · rcases Bool.dichotomy ls.state.manualPriority with hman | hman <;>
      simp [sampleStep, hman, hfault, hoff, sampleEpilogue_faultLockUntil]
  · rcases Bool.dichotomy ls.state.manualPriority with hman | hman <;>
      simp [sampleStep, hman, hfault, hoff, sampleEpilogue_lastOffMs]
  · rcases Bool.dichotomy ls.state.manualPriority with hman | hman <;>
      simp [sampleStep, hman, hfault, hoff, sampleEpilogue_state]
  · rcases Bool.dichotomy ls.state.manualPriority with hman | hman <;>
      simp [sampleStep, hman, hfault, hoff, sampleEpilogue_state]
  · intro ev hev
    rcases Bool.dichotomy ls.state.manualPriority with hman | hman <;>
      simp only [sampleStep, hman, hfault, hoff] at hev <;>
      simp [hfault, hoff, hman] at hev <;>
      rcases sampleEpilogue_nil_mem _ _ _ ev hev with h | h <;> simp [h]

/-- Witness for C10: an undervoltage sample arriving at t = 600 while
the relay is off on the boot state leaves the lockout timer unchanged. -/
theorem C10_witness :
    (sampleStep lsBoot 600 (some 100) (some 3) (some 500) (some (mkRat 9 10))
      6 12 0).1.faultLockUntil = lsBoot.faultLockUntil :=
  (C10_fault_while_off lsBoot 600 (some 100) (some 3) (some 500)
    (some (mkRat 9 10)) 6 12 0 (by decide) rfl).1

/-- Claim C4 (code behaviour at the failing input): on NaN meter
readings the loop substitutes 0 for voltage/current/power and 1.0 for
power factor, but `evaluateFaults` is then invoked with no validity
gate, so the substituted zero voltage reads as `FAULT_UNDERVOLT` and a
running pump is tripped off and locked out by a mere sensor dropout. -/
theorem C4_zero_voltage_trips :
    ((none : Option ℚ).getD 0 = 0 ∧ (none : Option ℚ).getD 1 = 1) ∧
    evaluateFaults defaultThresholds 0 0 1 = FAULT_UNDERVOLT ∧
    (stepLoop lsRunning (.sample 500 none none none none 6 10 0)).1.state.relayPhysical
      = false ∧
    (stepLoop lsRunning (.sample 500 none none none none 6 10 0)).1.state.lastFault
      = "UNDER VOLT" ∧
    (stepLoop lsRunning (.sample 500 none none none none 6 10 0)).1.faultLockUntil
      = 30500 ∧
    ("fault", "UNDER VOLT") ∈
      (stepLoop lsRunning (.sample 500 none none none none 6 10 0)).2 := by
  decide

end PumpGuardian
